import Mathlib

/-!
Verification of the drawio diagram parser (`drawparser.py`).

The source parses a drawio XML document into a flat list of `DrawioElement`
records.  We shallowly embed the XML tree, the attribute dictionaries and
the parsing functions, and prove the specification's claims about them.

Encoding conventions:
* An XML element is a tag, an attribute list and a child list
  (document order preserved).
* A Python attribute dictionary `dict[str, str | None]` is embedded as a
  function `String → Option (Option String)`:
  `none` means the key is not in the dictionary, `some none` means the key
  is present with value `None` (the absent marker), and `some (some s)`
  means the key is present with string value `s`.
* Python exceptions are embedded with `Except ParseError`.
* File loading (`ET.parse`) is not modelled as I/O: `parse_diagram` takes
  the result of loading, `Except ParseError Element`, so a load failure is
  an `Except.error` input.
-/

/-- An XML element: tag name, attribute association list, children in
document order.  Mirrors `xml.etree.ElementTree.Element`. -/
inductive Element where
  | mk (tag : String) (attribList : List (String × String)) (children : List Element)

/-- The tag name of an element (`element.tag`). -/
def Element.tag : Element → String
  | .mk t _ _ => t

/-- The attribute list of an element (`element.attrib`, keys assumed unique). -/
def Element.attribList : Element → List (String × String)
  | .mk _ a _ => a

/-- The list of direct children of an element, in document order. -/
def Element.children : Element → List Element
  | .mk _ _ c => c

mutual

/-- Document-order (preorder, self included) traversal of an element's
subtree: the order in which `element.iter()` yields elements. -/
def Element.preorder : Element → List Element
  | .mk t a cs => .mk t a cs :: Element.preorderList cs

/-- Preorder traversal of a list of sibling subtrees, in document order. -/
def Element.preorderList : List Element → List Element
  | [] => []
  | c :: cs => c.preorder ++ Element.preorderList cs

end

/-- A Python `dict[str, str | None]` of attribute values: `none` = key not
in the dictionary, `some none` = key present with `None` (absent marker),
`some (some s)` = key present with string `s`. -/
def Dict : Type := String → Option (Option String)

/-- The empty dictionary `{}`. -/
def Dict.empty : Dict := fun _ => none

/-- `xml_attributes_to_dict(element, attributes)`: a dict with exactly the
requested keys, each mapped to `element.attrib.get(attrib, None)`. -/
def xml_attributes_to_dict (element : Element) (attributes : List String) : Dict :=
  fun attrib =>
    if attrib ∈ attributes then some (element.attribList.lookup attrib) else none

/-- `child_or_none(element, child_tag)`: the first element of
`[*element.iter(child_tag)]` — the full-subtree, document-order search,
self included — or `None` when there is no match. -/
def child_or_none (element : Element) (child_tag : String) : Option Element :=
  (element.preorder.filter (fun x => x.tag == child_tag)).head?

/-- `merge_dicts_prefer_not_none(a, b)`: over the key union, a key takes
`a`'s value when present and not `None` in `a`; a key present in `a` with
`None` takes `b.get(key)` (so `None` again when `b` lacks it); a key only
in `b` takes `b[key]`. -/
def merge_dicts_prefer_not_none (a b : Dict) : Dict :=
  fun key =>
    match a key with
    | some (some v) => some (some v)
    | some none =>
        some (match b key with   -- b.get(key): try b and fall back to None
              | some w => w
              | none => none)
    | none => b key

/-- Error kinds raised by the parser: `ValueError` on a tag mismatch,
`KeyError` on an unregistered top-level tag, and the `ET.parse` failure
for an unloadable document. -/
inductive ParseError where
  | tagMismatch (expected actual : String)
  | unhandledKind (tag : String)
  | documentParse
deriving DecidableEq

/-- `parse_mxgeo(element)`: check the tag, then fetch
`x, y, width, height`. -/
def parse_mxgeo (element : Element) : Except ParseError Dict :=
  if element.tag ≠ "mxGeometry" then
    .error (.tagMismatch "mxGeometry" element.tag)
  else
    .ok (xml_attributes_to_dict element ["x", "y", "width", "height"])

/-- `parse_mxcell(element)`: check the tag, fetch
`value, style, id, parent, vertex`, then merge the first `mxGeometry`
descendant's attributes (empty dict when there is none) as secondary. -/
def parse_mxcell (element : Element) : Except ParseError Dict :=
  if element.tag ≠ "mxCell" then
    .error (.tagMismatch "mxCell" element.tag)
  else do
    let mxcell_attribs := xml_attributes_to_dict element
      ["value", "style", "id", "parent", "vertex"]
    let mxgeo_attribs ← match child_or_none element "mxGeometry" with
      | some mxgeo => parse_mxgeo mxgeo
      | none => .ok Dict.empty
    pure (merge_dicts_prefer_not_none mxcell_attribs mxgeo_attribs)

/-- `parse_object(element)`: check the tag, fetch `label, id, tags`, then
merge the first `mxCell` descendant's parsed attributes (empty dict when
there is none) as secondary. -/
def parse_object (element : Element) : Except ParseError Dict :=
  if element.tag ≠ "object" then
    .error (.tagMismatch "object" element.tag)
  else do
    let object_attribs := xml_attributes_to_dict element ["label", "id", "tags"]
    let mx_cell_attribs ← match child_or_none element "mxCell" with
      | some mx_cell => parse_mxcell mx_cell
      | none => .ok Dict.empty
    pure (merge_dicts_prefer_not_none object_attribs mx_cell_attribs)

/-- `parse_userobject(element)`: check the tag, fetch `label, tags, id`,
then merge the first `mxCell` descendant's parsed attributes (empty dict
when there is none) as secondary. -/
def parse_userobject (element : Element) : Except ParseError Dict :=
  if element.tag ≠ "UserObject" then
    .error (.tagMismatch "UserObject" element.tag)
  else do
    let mx_user_object := xml_attributes_to_dict element ["label", "tags", "id"]
    let mx_cell_attribs ← match child_or_none element "mxCell" with
      | some mx_cell => parse_mxcell mx_cell
      | none => .ok Dict.empty
    pure (merge_dicts_prefer_not_none mx_user_object mx_cell_attribs)

/-- The `DrawioElement` dataclass.  Every field defaults to `None`; the
Python type annotations (`id: str`) are not enforced at runtime, so every
field can hold `None`, embedded as `Option String`.  The source declares
`value` twice; that is a single field at runtime. -/
structure DrawioElement where
  id : Option String
  value : Option String
  label : Option String
  tags : Option String
  style : Option String
  parent : Option String
  vertex : Option String
  x : Option String
  y : Option String
  width : Option String
  height : Option String
deriving DecidableEq

/-- `DrawioElement(**d)`: each field is the dict's value at its name,
falling back to the default `None` when the name is not a key.  (The
parsers always supply the `id` key, the one field without a default, and
never supply a key outside the field names, so the keyword construction
never fails.) -/
def mkDrawioElement (d : Dict) : DrawioElement where
  id := (d "id").join
  value := (d "value").join
  label := (d "label").join
  tags := (d "tags").join
  style := (d "style").join
  parent := (d "parent").join
  vertex := (d "vertex").join
  x := (d "x").join
  y := (d "y").join
  width := (d "width").join
  height := (d "height").join

/-- `root.findall("./diagram[1]/mxGraphModel/root/*")`: the direct
children of every `root` child of every `mxGraphModel` child of the first
`diagram` child of the document root, in document order; empty when the
structural path does not match. -/
def child_shapes (root : Element) : List Element :=
  match (root.children.filter (fun c => c.tag == "diagram")).head? with
  | none => []
  | some d =>
      ((d.children.filter (fun m => m.tag == "mxGraphModel")).map
        (fun m => ((m.children.filter (fun r => r.tag == "root")).map
          Element.children).flatten)).flatten

/-- The tag names with a registered parser in `parse_diagram`. -/
def registeredTags : List String := ["object", "mxCell", "UserObject"]

/-- `parser[shape.tag](shape)`: look the tag up in the parser registry and
apply the parser; an unregistered tag is a `KeyError`. -/
def dispatch (shape : Element) : Except ParseError Dict :=
  if shape.tag = "object" then parse_object shape
  else if shape.tag = "mxCell" then parse_mxcell shape
  else if shape.tag = "UserObject" then parse_userobject shape
  else .error (.unhandledKind shape.tag)

/-- The walker's loop: dispatch each shape in order and collect the
constructed `DrawioElement`s; the first raised error aborts the walk. -/
def parse_shapes : List Element → Except ParseError (List DrawioElement)
  | [] => .ok []
  | shape :: rest => do
      let d ← dispatch shape
      let recs ← parse_shapes rest
      pure (mkDrawioElement d :: recs)

/-- `parse_diagram(diagram)`: load the document (here: receive the load
result; `ET.parse` failures arrive as `Except.error`), locate the shape
elements via the fixed structural path, and parse each in document
order. -/
def parse_diagram (loaded : Except ParseError Element) :
    Except ParseError (List DrawioElement) := do
  let root ← loaded
  parse_shapes (child_shapes root)

/-- The minimal synthetic document of claim C1: an `object` (id="1",
label="Box") containing an `mxCell` (style="rounded=1") containing an
`mxGeometry` (x="10", y="20", width="80", height="40"). -/
def minimalDoc : Element :=
  .mk "mxfile" [] [.mk "diagram" [] [.mk "mxGraphModel" [] [.mk "root" []
    [.mk "object" [("id", "1"), ("label", "Box")]
      [.mk "mxCell" [("style", "rounded=1")]
        [.mk "mxGeometry" [("x", "10"), ("y", "20"), ("width", "80"), ("height", "40")] []]]]]]]

/-! ### Helper lemmas -/

theorem Dict.empty_apply (k : String) : Dict.empty k = none := rfl

theorem child_or_none_tag {e : Element} {t : String} {g : Element}
    (h : child_or_none e t = some g) : g.tag = t := by
  unfold child_or_none at h
  rcases hl : e.preorder.filter (fun x => x.tag == t) with _ | ⟨a, rest⟩
  · rw [hl] at h; simp at h
  · rw [hl] at h
    simp [List.head?] at h
    subst h
    have ha : a ∈ e.preorder.filter (fun x => x.tag == t) := by
      rw [hl]; exact List.mem_cons_self _ _
    have := List.of_mem_filter ha
    simpa using this

theorem parse_mxgeo_ok {e : Element} (h : e.tag = "mxGeometry") :
    parse_mxgeo e = .ok (xml_attributes_to_dict e ["x", "y", "width", "height"]) := by
  simp [parse_mxgeo, h]

theorem parse_mxcell_eq {e : Element} (h : e.tag = "mxCell") :
    ∃ gd : Dict,
      parse_mxcell e = .ok (merge_dicts_prefer_not_none
        (xml_attributes_to_dict e ["value", "style", "id", "parent", "vertex"]) gd) ∧
      (∀ k, k ∉ (["x", "y", "width", "height"] : List String) → gd k = none) := by
  unfold parse_mxcell
  rw [if_neg (by simp [h])]
  cases hc : child_or_none e "mxGeometry" with
  | none => exact ⟨Dict.empty, rfl, fun k _ => rfl⟩
  | some g =>
      have hg := child_or_none_tag hc
      refine ⟨xml_attributes_to_dict g ["x", "y", "width", "height"], ?_, ?_⟩
      · simp only [parse_mxgeo_ok hg]
        rfl
      · intro k hk
        simp [xml_attributes_to_dict, hk]

theorem parse_object_eq {e : Element} (h : e.tag = "object") :
    ∃ cd : Dict,
      parse_object e = .ok (merge_dicts_prefer_not_none
        (xml_attributes_to_dict e ["label", "id", "tags"]) cd) ∧
      (cd = Dict.empty ∨ ∃ c, child_or_none e "mxCell" = some c ∧ parse_mxcell c = .ok cd) := by
  unfold parse_object
  rw [if_neg (by simp [h])]
  cases hc : child_or_none e "mxCell" with
  | none => exact ⟨Dict.empty, rfl, Or.inl rfl⟩
  | some c =>
      have hctag := child_or_none_tag hc
      obtain ⟨gd, hcell, -⟩ := parse_mxcell_eq hctag
      refine ⟨merge_dicts_prefer_not_none
        (xml_attributes_to_dict c ["value", "style", "id", "parent", "vertex"]) gd,
        ?_, Or.inr ⟨c, rfl, hcell⟩⟩
      simp only [hcell]
      rfl

theorem parse_userobject_eq {e : Element} (h : e.tag = "UserObject") :
    ∃ cd : Dict,
      parse_userobject e = .ok (merge_dicts_prefer_not_none
        (xml_attributes_to_dict e ["label", "tags", "id"]) cd) ∧
      (cd = Dict.empty ∨ ∃ c, child_or_none e "mxCell" = some c ∧ parse_mxcell c = .ok cd) := by
  unfold parse_userobject
  rw [if_neg (by simp [h])]
  cases hc : child_or_none e "mxCell" with
  | none => exact ⟨Dict.empty, rfl, Or.inl rfl⟩
  | some c =>
      have hctag := child_or_none_tag hc
      obtain ⟨gd, hcell, -⟩ := parse_mxcell_eq hctag
      refine ⟨merge_dicts_prefer_not_none
        (xml_attributes_to_dict c ["value", "style", "id", "parent", "vertex"]) gd,
        ?_, Or.inr ⟨c, rfl, hcell⟩⟩
      simp only [hcell]
      rfl

theorem dispatch_ok {e : Element} (h : e.tag ∈ registeredTags) :
    ∃ d, dispatch e = .ok d := by
  simp [registeredTags] at h
  rcases h with h | h | h
  · obtain ⟨cd, hd, -⟩ := parse_object_eq h
    exact ⟨merge_dicts_prefer_not_none (xml_attributes_to_dict e ["label", "id", "tags"]) cd,
      by simp [dispatch, h, hd]⟩
  · obtain ⟨gd, hd, -⟩ := parse_mxcell_eq h
    exact ⟨merge_dicts_prefer_not_none
        (xml_attributes_to_dict e ["value", "style", "id", "parent", "vertex"]) gd,
      by simp [dispatch, h, hd]⟩
  · obtain ⟨cd, hd, -⟩ := parse_userobject_eq h
    exact ⟨merge_dicts_prefer_not_none (xml_attributes_to_dict e ["label", "tags", "id"]) cd,
      by simp [dispatch, h, hd]⟩

theorem except_ok_bind {α β : Type} (a : α) (f : α → Except ParseError β) :
    (Except.ok a : Except ParseError α).bind f = f a := rfl

theorem except_error_bind {α β : Type} (err : ParseError) (f : α → Except ParseError β) :
    (Except.error err : Except ParseError α).bind f = .error err := rfl

theorem parse_shapes_cons (s : Element) (rest : List Element) :
    parse_shapes (s :: rest) =
      (dispatch s).bind (fun d => (parse_shapes rest).bind
        (fun recs => .ok (mkDrawioElement d :: recs))) := rfl

theorem dispatch_unregistered {e : Element} (h : e.tag ∉ registeredTags) :
    dispatch e = .error (.unhandledKind e.tag) := by
  simp [registeredTags] at h
  obtain ⟨h1, h2, h3⟩ := h
  simp [dispatch, h1, h2, h3]

theorem parse_shapes_unhandled :
    ∀ shapes : List Element, (∃ s ∈ shapes, s.tag ∉ registeredTags) →
      ∃ t, t ∉ registeredTags ∧ parse_shapes shapes = .error (.unhandledKind t)
  | [], h => by simp at h
  | s :: rest, h => by
      by_cases hs : s.tag ∈ registeredTags
      · obtain ⟨d, hd⟩ := dispatch_ok hs
        have hrest : ∃ x ∈ rest, x.tag ∉ registeredTags := by
          obtain ⟨x, hx, hxt⟩ := h
          rcases List.mem_cons.mp hx with rfl | hx'
          · exact absurd hs hxt
          · exact ⟨x, hx', hxt⟩
        obtain ⟨t, ht, herr⟩ := parse_shapes_unhandled rest hrest
        exact ⟨t, ht, by rw [parse_shapes_cons, hd, except_ok_bind, herr, except_error_bind]⟩
      · exact ⟨s.tag, hs,
          by rw [parse_shapes_cons, dispatch_unregistered hs, except_error_bind]⟩

theorem parse_shapes_forall2 :
    ∀ (shapes : List Element) (recs : List DrawioElement),
      parse_shapes shapes = .ok recs →
      List.Forall₂ (fun s r => ∃ d, dispatch s = .ok d ∧ r = mkDrawioElement d) shapes recs
  | [], recs, h => by
      simp only [parse_shapes] at h
      cases h
      exact List.Forall₂.nil
  | s :: rest, recs, h => by
      rw [parse_shapes_cons] at h
      cases hd : dispatch s with
      | error err => rw [hd, except_error_bind] at h; cases h
      | ok d =>
          rw [hd, except_ok_bind] at h
          cases hrest : parse_shapes rest with
          | error err => rw [hrest, except_error_bind] at h; cases h
          | ok rs =>
              rw [hrest, except_ok_bind] at h
              cases h
              exact List.Forall₂.cons ⟨d, hd, rfl⟩ (parse_shapes_forall2 rest rs hrest)

theorem merge_id_absent {a b : Dict} {k : String} (ha : a k = some none)
    (hb : b k = none ∨ b k = some none) :
    merge_dicts_prefer_not_none a b k = some none := by
  rcases hb with hb | hb <;> simp [merge_dicts_prefer_not_none, ha, hb]

theorem mkDrawioElement_id (d : Dict) (hd : d "id" = some none) :
    (mkDrawioElement d).id = none := by
  show (d "id").join = none
  rw [hd]
  rfl

/-! ### Claim theorems -/

/-- Claim C1: parsing the minimal synthetic document — one `object`
(id="1", label="Box") containing one `mxCell` (style="rounded=1")
containing one `mxGeometry` (x="10", y="20", width="80", height="40") —
returns exactly one record with id="1", label="Box", style="rounded=1",
x="10", y="20", width="80", height="40", and `value` the absent marker. -/
theorem roundtrip_minimal_document :
    parse_diagram (.ok minimalDoc) =
      .ok [{ id := some "1", value := none, label := some "Box", tags := none,
             style := some "rounded=1", parent := none, vertex := none,
             x := some "10", y := some "20", width := some "80", height := some "40" }] := by
  rfl

/-- Claim C2: in `merge_dicts_prefer_not_none a b`, a key present in `a`
with a non-absent value keeps `a`'s value; a key present in `a` with the
absent marker and present in `b` takes `b`'s value; a key only in `b`
takes `b`'s value; and the merged key set is exactly the union of the two
key sets. -/
theorem merge_precedence (a b : Dict) (k : String) :
    (∀ v : String, a k = some (some v) → merge_dicts_prefer_not_none a b k = some (some v)) ∧
    (a k = some none → ∀ w : Option String, b k = some w →
      merge_dicts_prefer_not_none a b k = some w) ∧
    (a k = none → merge_dicts_prefer_not_none a b k = b k) ∧
    (merge_dicts_prefer_not_none a b k ≠ none ↔ (a k ≠ none ∨ b k ≠ none)) := by
  unfold merge_dicts_prefer_not_none
  rcases ha : a k with _ | (_ | v) <;> rcases hb : b k with _ | (_ | w) <;> simp

/-- Claim C2 witness: the three precedence clauses at concrete dicts. -/
theorem merge_precedence_witness :
    merge_dicts_prefer_not_none
        (fun k => if k = "p" then some (some "1") else if k = "q" then some none else none)
        (fun k => if k = "q" then some (some "2") else if k = "r" then some (some "3") else none)
        "p" = some (some "1") ∧
    merge_dicts_prefer_not_none
        (fun k => if k = "p" then some (some "1") else if k = "q" then some none else none)
        (fun k => if k = "q" then some (some "2") else if k = "r" then some (some "3") else none)
        "q" = some (some "2") ∧
    merge_dicts_prefer_not_none
        (fun k => if k = "p" then some (some "1") else if k = "q" then some none else none)
        (fun k => if k = "q" then some (some "2") else if k = "r" then some (some "3") else none)
        "r" = some (some "3") :=
  ⟨(merge_precedence _ _ "p").1 "1" (by decide),
   (merge_precedence _ _ "q").2.1 (by decide) (some "2") (by decide),
   (merge_precedence _ _ "r").2.2.1 (by decide)⟩

/-- Claim C3: the merge is associative under the three-level fold: for
all object-, cell- and geometry-level dicts, `merge O (merge C G)` and
`merge (merge O C) G` agree at every key. -/
theorem merge_assoc (O C G : Dict) (k : String) :
    merge_dicts_prefer_not_none O (merge_dicts_prefer_not_none C G) k =
      merge_dicts_prefer_not_none (merge_dicts_prefer_not_none O C) G k := by
  unfold merge_dicts_prefer_not_none
  rcases hO : O k with _ | (_ | v) <;> rcases hC : C k with _ | (_ | w) <;>
    rcases hG : G k with _ | (_ | u) <;> simp

/-- Claim C4: the extractor's key set is exactly the requested name set;
each requested name maps to the element's attribute value, with the
absent marker exactly when the attribute is missing; the extractor is
total (never raises), and its result does not depend on the element's
children. -/
theorem extractor_spec (e : Element) (attrs : List String) (k : String) :
    (k ∈ attrs → xml_attributes_to_dict e attrs k = some (e.attribList.lookup k)) ∧
    (k ∈ attrs → (xml_attributes_to_dict e attrs k = some none ↔ e.attribList.lookup k = none)) ∧
    (k ∉ attrs → xml_attributes_to_dict e attrs k = none) ∧
    (∀ (t : String) (al : List (String × String)) (cs cs' : List Element),
      xml_attributes_to_dict (.mk t al cs) attrs k =
        xml_attributes_to_dict (.mk t al cs') attrs k) := by
  refine ⟨fun h => by simp [xml_attributes_to_dict, h],
          fun h => by simp [xml_attributes_to_dict, h],
          fun h => by simp [xml_attributes_to_dict, h],
          fun t al cs cs' => by simp [xml_attributes_to_dict, Element.attribList]⟩

/-- Claim C4 witness: the four extractor clauses at a concrete element. -/
theorem extractor_spec_witness :
    xml_attributes_to_dict (.mk "object" [("id", "7")] []) ["id", "label"] "id"
      = some (some "7") ∧
    xml_attributes_to_dict (.mk "object" [("id", "7")] []) ["id", "label"] "label"
      = some none ∧
    xml_attributes_to_dict (.mk "object" [("id", "7")] []) ["id", "label"] "style"
      = none ∧
    xml_attributes_to_dict (.mk "object" [("id", "7")]
        [.mk "mxCell" [("id", "9")] []]) ["id", "label"] "id"
      = xml_attributes_to_dict (.mk "object" [("id", "7")] []) ["id", "label"] "id" :=
  ⟨(extractor_spec (.mk "object" [("id", "7")] []) ["id", "label"] "id").1 (by decide),
   ((extractor_spec (.mk "object" [("id", "7")] []) ["id", "label"] "label").2.1
      (by decide)).mpr (by decide),
   (extractor_spec (.mk "object" [("id", "7")] []) ["id", "label"] "style").2.2.1 (by decide),
   (extractor_spec (.mk "object" [("id", "7")]
      [.mk "mxCell" [("id", "9")] []]) ["id", "label"] "id").2.2.2 "object"
      [("id", "7")] [.mk "mxCell" [("id", "9")] []] []⟩

/-- Claim C5: each of the four parsers fails exactly on a tag mismatch,
reporting a tag-mismatch error carrying the expected and actual tags, and
succeeds on an element with its own tag; in particular the cell parser
errors on an `object`-tagged element. -/
theorem tag_mismatch_spec :
    (∀ e : Element, e.tag ≠ "mxGeometry" →
      parse_mxgeo e = .error (.tagMismatch "mxGeometry" e.tag)) ∧
    (∀ e : Element, e.tag = "mxGeometry" → ∃ d, parse_mxgeo e = .ok d) ∧
    (∀ e : Element, e.tag ≠ "mxCell" →
      parse_mxcell e = .error (.tagMismatch "mxCell" e.tag)) ∧
    (∀ e : Element, e.tag = "mxCell" → ∃ d, parse_mxcell e = .ok d) ∧
    (∀ e : Element, e.tag ≠ "object" →
      parse_object e = .error (.tagMismatch "object" e.tag)) ∧
    (∀ e : Element, e.tag = "object" → ∃ d, parse_object e = .ok d) ∧
    (∀ e : Element, e.tag ≠ "UserObject" →
      parse_userobject e = .error (.tagMismatch "UserObject" e.tag)) ∧
    (∀ e : Element, e.tag = "UserObject" → ∃ d, parse_userobject e = .ok d) ∧
    (∀ e : Element, e.tag = "object" →
      parse_mxcell e = .error (.tagMismatch "mxCell" "object")) := by
  refine ⟨fun e h => by simp [parse_mxgeo, h],
          fun e h => ⟨_, parse_mxgeo_ok h⟩,
          fun e h => by simp [parse_mxcell, h],
          fun e h => ?_,
          fun e h => by simp [parse_object, h],
          fun e h => ?_,
          fun e h => by simp [parse_userobject, h],
          fun e h => ?_,
          fun e h => by simp [parse_mxcell, h]⟩
  · obtain ⟨gd, hd, -⟩ := parse_mxcell_eq h
    exact ⟨_, hd⟩
  · obtain ⟨cd, hd, -⟩ := parse_object_eq h
    exact ⟨_, hd⟩
  · obtain ⟨cd, hd, -⟩ := parse_userobject_eq h
    exact ⟨_, hd⟩

/-- Claim C5 witness: each clause applied at a concrete element. -/
theorem tag_mismatch_spec_witness :
    parse_mxgeo (.mk "object" [] []) = .error (.tagMismatch "mxGeometry" "object") ∧
    (∃ d, parse_mxgeo (.mk "mxGeometry" [] []) = .ok d) ∧
    parse_mxcell (.mk "mxGeometry" [] []) = .error (.tagMismatch "mxCell" "mxGeometry") ∧
    (∃ d, parse_mxcell (.mk "mxCell" [] []) = .ok d) ∧
    parse_object (.mk "mxCell" [] []) = .error (.tagMismatch "object" "mxCell") ∧
    (∃ d, parse_object (.mk "object" [] []) = .ok d) ∧
    parse_userobject (.mk "mxCell" [] []) = .error (.tagMismatch "UserObject" "mxCell") ∧
    (∃ d, parse_userobject (.mk "UserObject" [] []) = .ok d) ∧
    parse_mxcell (.mk "object" [] []) = .error (.tagMismatch "mxCell" "object") :=
  ⟨tag_mismatch_spec.1 (.mk "object" [] []) (by decide),
   tag_mismatch_spec.2.1 (.mk "mxGeometry" [] []) rfl,
   tag_mismatch_spec.2.2.1 (.mk "mxGeometry" [] []) (by decide),
   tag_mismatch_spec.2.2.2.1 (.mk "mxCell" [] []) rfl,
   tag_mismatch_spec.2.2.2.2.1 (.mk "mxCell" [] []) (by decide),
   tag_mismatch_spec.2.2.2.2.2.1 (.mk "object" [] []) rfl,
   tag_mismatch_spec.2.2.2.2.2.2.1 (.mk "mxCell" [] []) (by decide),
   tag_mismatch_spec.2.2.2.2.2.2.2.1 (.mk "UserObject" [] []) rfl,
   tag_mismatch_spec.2.2.2.2.2.2.2.2 (.mk "object" [] []) rfl⟩

/-- Claim C6: a root container with a direct child whose tag has no
registered parser makes the walk fail with an unhandled-kind error — no
silent skip, no default parser. -/
theorem unhandled_kind_fails (root : Element)
    (h : ∃ s ∈ child_shapes root, s.tag ∉ registeredTags) :
    ∃ t, t ∉ registeredTags ∧ parse_diagram (.ok root) = .error (.unhandledKind t) := by
  obtain ⟨t, ht, herr⟩ := parse_shapes_unhandled (child_shapes root) h
  exact ⟨t, ht, herr⟩

/-- Claim C6 witness: a document whose root container holds an `mxPoint`
child fails with an unhandled-kind error. -/
theorem unhandled_kind_fails_witness :
    ∃ t, t ∉ registeredTags ∧
      parse_diagram (.ok (.mk "mxfile" [] [.mk "diagram" [] [.mk "mxGraphModel" []
        [.mk "root" [] [.mk "mxPoint" [("x", "1")] []]]]]))
        = .error (.unhandledKind t) :=
  unhandled_kind_fails _ ⟨.mk "mxPoint" [("x", "1")] [], List.mem_cons_self _ _, by decide⟩

/-- Claim C7: when the walk succeeds, the output records correspond
one-to-one, in document order, to the shape elements under the root
container: the i-th record is built from the parsed attributes of the
i-th shape element, whatever the mix of tag kinds. -/
theorem order_preserved (root : Element) (recs : List DrawioElement)
    (h : parse_diagram (.ok root) = .ok recs) :
    List.Forall₂ (fun s r => ∃ d, dispatch s = .ok d ∧ r = mkDrawioElement d)
      (child_shapes root) recs := by
  have h' : parse_shapes (child_shapes root) = .ok recs := h
  exact parse_shapes_forall2 _ _ h'

/-- Claim C7 witness: a two-shape document with mixed tag kinds (a bare
`mxCell` followed by an `object`) yields records in document order. -/
theorem order_preserved_witness :
    List.Forall₂ (fun s r => ∃ d, dispatch s = .ok d ∧ r = mkDrawioElement d)
      (child_shapes (.mk "mxfile" [] [.mk "diagram" [] [.mk "mxGraphModel" []
        [.mk "root" []
          [.mk "mxCell" [("id", "a"), ("style", "s1")] [],
           .mk "object" [("id", "b"), ("label", "L")]
             [.mk "mxCell" [("style", "s2")] []]]]]]))
      [{ id := some "a", value := none, label := none, tags := none,
         style := some "s1", parent := none, vertex := none,
         x := none, y := none, width := none, height := none },
       { id := some "b", value := none, label := some "L", tags := none,
         style := some "s2", parent := none, vertex := none,
         x := none, y := none, width := none, height := none }] :=
  order_preserved _ _ (by rfl)

/-- Claim C8 counterexample: a well-formed document in which the expected
structural path (diagram → mxGraphModel → root) does not match makes the
walk return the empty record list — it does not fail with a
document-parse error. -/
theorem missing_structural_path_no_error :
    parse_diagram (.ok (.mk "mxfile" [] [])) = .ok [] := rfl

/-- Claim C8 (amended): a load failure (missing file, malformed markup)
propagates to the caller uncaught as the document-parse error, while a
well-formed document whose structural path does not match produces the
empty record list rather than an error. -/
theorem document_parse_error_propagation (err : ParseError) (root : Element)
    (h : child_shapes root = []) :
    parse_diagram (.error err) = .error err ∧ parse_diagram (.ok root) = .ok [] := by
  refine ⟨rfl, ?_⟩
  show parse_shapes (child_shapes root) = .ok []
  rw [h]
  rfl

/-- Claim C8 (amended) witness: a concrete load failure and a concrete
document without the structural path. -/
theorem document_parse_error_propagation_witness :
    parse_diagram (.error .documentParse) = .error .documentParse ∧
    parse_diagram (.ok (.mk "mxfile" [] [.mk "notadiagram" [] []])) = .ok [] :=
  document_parse_error_propagation .documentParse
    (.mk "mxfile" [] [.mk "notadiagram" [] []]) (by rfl)

/-- Claim C9: the nested-child lookup searches the full subtree in
document order, not only direct children: any matching descendant, at any
depth, makes the lookup succeed with a matching element, and each parser
merges the found descendant's parsed attributes as secondary onto its
own. -/
theorem subtree_search_spec :
    (∀ (e g : Element) (t : String), g ∈ e.preorder → g.tag = t →
      ∃ g', child_or_none e t = some g' ∧ g'.tag = t) ∧
    (∀ e g : Element, e.tag = "mxCell" → child_or_none e "mxGeometry" = some g →
      parse_mxcell e = .ok (merge_dicts_prefer_not_none
        (xml_attributes_to_dict e ["value", "style", "id", "parent", "vertex"])
        (xml_attributes_to_dict g ["x", "y", "width", "height"]))) ∧
    (∀ (e c : Element) (d : Dict), e.tag = "object" →
      child_or_none e "mxCell" = some c → parse_mxcell c = .ok d →
      parse_object e = .ok (merge_dicts_prefer_not_none
        (xml_attributes_to_dict e ["label", "id", "tags"]) d)) ∧
    (∀ (e c : Element) (d : Dict), e.tag = "UserObject" →
      child_or_none e "mxCell" = some c → parse_mxcell c = .ok d →
      parse_userobject e = .ok (merge_dicts_prefer_not_none
        (xml_attributes_to_dict e ["label", "tags", "id"]) d)) := by
  refine ⟨?_, ?_, ?_, ?_⟩
  · intro e g t hg ht
    rcases hl : e.preorder.filter (fun x => x.tag == t) with _ | ⟨a, rest⟩
    · exfalso
      have hmem : g ∈ e.preorder.filter (fun x => x.tag == t) :=
        List.mem_filter.mpr ⟨hg, by simp [ht]⟩
      rw [hl] at hmem
      simp at hmem
    · refine ⟨a, ?_, ?_⟩
      · unfold child_or_none
        rw [hl]
        rfl
      · have ha : a ∈ e.preorder.filter (fun x => x.tag == t) := by
          rw [hl]; exact List.mem_cons_self _ _
        simpa using List.of_mem_filter ha
  · intro e g h hc
    unfold parse_mxcell
    rw [if_neg (by simp [h]), hc]
    simp only [parse_mxgeo_ok (child_or_none_tag hc)]
    rfl
  · intro e c d h hc hcell
    unfold parse_object
    rw [if_neg (by simp [h]), hc]
    simp only [hcell]
    rfl
  · intro e c d h hc hcell
    unfold parse_userobject
    rw [if_neg (by simp [h]), hc]
    simp only [hcell]
    rfl

/-- Claim C9 witness: a geometry (resp. cell) two nesting levels below
the cell (resp. object) is still found and merged as secondary. -/
theorem subtree_search_spec_witness :
    (∃ g', child_or_none
        (.mk "mxCell" [("id", "c")] [.mk "wrap" [] [.mk "mxGeometry" [("x", "5")] []]])
        "mxGeometry" = some g' ∧ g'.tag = "mxGeometry") ∧
    parse_mxcell (.mk "mxCell" [("id", "c")] [.mk "wrap" [] [.mk "mxGeometry" [("x", "5")] []]])
      = .ok (merge_dicts_prefer_not_none
          (xml_attributes_to_dict
            (.mk "mxCell" [("id", "c")] [.mk "wrap" [] [.mk "mxGeometry" [("x", "5")] []]])
            ["value", "style", "id", "parent", "vertex"])
          (xml_attributes_to_dict (.mk "mxGeometry" [("x", "5")] [])
            ["x", "y", "width", "height"])) ∧
    parse_object (.mk "object" [("id", "o")] [.mk "wrap" [] [.mk "mxCell" [("id", "c")] []]])
      = .ok (merge_dicts_prefer_not_none
          (xml_attributes_to_dict
            (.mk "object" [("id", "o")] [.mk "wrap" [] [.mk "mxCell" [("id", "c")] []]])
            ["label", "id", "tags"])
          (merge_dicts_prefer_not_none
            (xml_attributes_to_dict (.mk "mxCell" [("id", "c")] [])
              ["value", "style", "id", "parent", "vertex"]) Dict.empty)) :=
  ⟨subtree_search_spec.1 _ (.mk "mxGeometry" [("x", "5")] []) "mxGeometry"
      (List.mem_cons_of_mem _ (List.mem_cons_of_mem _ (List.mem_cons_self _ _))) rfl,
   subtree_search_spec.2.1 _ (.mk "mxGeometry" [("x", "5")] []) rfl rfl,
   subtree_search_spec.2.2.1 _ (.mk "mxCell" [("id", "c")] []) _ rfl rfl rfl⟩

/-- Claim C10: a shape element with a registered tag but no `id`
attribute (its nested cell, if any, also without one) does not make the
walk fail: its parser succeeds, the parsed dict carries the absent marker
at "id", and the constructed record's `id` field is the absent marker —
even though the spec declares `id` required. -/
theorem missing_id_tolerated (e : Element)
    (hreg : e.tag ∈ registeredTags)
    (hid : e.attribList.lookup "id" = none)
    (hnested : ∀ c, child_or_none e "mxCell" = some c → c.attribList.lookup "id" = none) :
    ∃ d, dispatch e = .ok d ∧ d "id" = some none ∧ (mkDrawioElement d).id = none := by
  simp only [registeredTags, List.mem_cons, List.not_mem_nil, or_false] at hreg
  rcases hreg with h | h | h
  · obtain ⟨cd, hd, hcd⟩ := parse_object_eq h
    have hown : xml_attributes_to_dict e ["label", "id", "tags"] "id" = some none := by
      simp [xml_attributes_to_dict, hid]
    have hcdid : cd "id" = none ∨ cd "id" = some none := by
      rcases hcd with rfl | ⟨c, hc, hcc⟩
      · exact Or.inl rfl
      · obtain ⟨gd, hcell, hgd⟩ := parse_mxcell_eq (child_or_none_tag hc)
        rw [hcell] at hcc
        rw [← Except.ok.inj hcc]
        have hcid : xml_attributes_to_dict c
            ["value", "style", "id", "parent", "vertex"] "id" = some none := by
          simp [xml_attributes_to_dict, hnested c hc]
        exact Or.inr (merge_id_absent hcid (Or.inl (hgd "id" (by decide))))
    have hmerged := merge_id_absent hown hcdid
    exact ⟨merge_dicts_prefer_not_none (xml_attributes_to_dict e ["label", "id", "tags"]) cd,
      by simp [dispatch, h, hd], hmerged, mkDrawioElement_id _ hmerged⟩
  · obtain ⟨gd, hd, hgd⟩ := parse_mxcell_eq h
    have hown : xml_attributes_to_dict e
        ["value", "style", "id", "parent", "vertex"] "id" = some none := by
      simp [xml_attributes_to_dict, hid]
    have hmerged := merge_id_absent hown (Or.inl (hgd "id" (by decide)))
    exact ⟨merge_dicts_prefer_not_none
        (xml_attributes_to_dict e ["value", "style", "id", "parent", "vertex"]) gd,
      by simp [dispatch, h, hd], hmerged, mkDrawioElement_id _ hmerged⟩
  · obtain ⟨cd, hd, hcd⟩ := parse_userobject_eq h
    have hown : xml_attributes_to_dict e ["label", "tags", "id"] "id" = some none := by
      simp [xml_attributes_to_dict, hid]
    have hcdid : cd "id" = none ∨ cd "id" = some none := by
      rcases hcd with rfl | ⟨c, hc, hcc⟩
      · exact Or.inl rfl
      · obtain ⟨gd, hcell, hgd⟩ := parse_mxcell_eq (child_or_none_tag hc)
        rw [hcell] at hcc
        rw [← Except.ok.inj hcc]
        have hcid : xml_attributes_to_dict c
            ["value", "style", "id", "parent", "vertex"] "id" = some none := by
          simp [xml_attributes_to_dict, hnested c hc]
        exact Or.inr (merge_id_absent hcid (Or.inl (hgd "id" (by decide))))
    have hmerged := merge_id_absent hown hcdid
    exact ⟨merge_dicts_prefer_not_none (xml_attributes_to_dict e ["label", "tags", "id"]) cd,
      by simp [dispatch, h, hd], hmerged, mkDrawioElement_id _ hmerged⟩

/-- Claim C10 witness: an `object` without `id` whose nested cell also
lacks `id` still yields a record, with the absent marker as `id`. -/
theorem missing_id_tolerated_witness :
    ∃ d, dispatch (.mk "object" [("label", "L")] [.mk "mxCell" [("style", "s")] []]) = .ok d ∧
      d "id" = some none ∧ (mkDrawioElement d).id = none :=
  missing_id_tolerated (.mk "object" [("label", "L")] [.mk "mxCell" [("style", "s")] []])
    (by decide) (by decide)
    (fun c hc => by
      have h2 : some (Element.mk "mxCell" [("style", "s")] []) = some c := hc
      have h3 := Option.some.inj h2
      rw [← h3]
      rfl)
